import Mathlib

/-!
Verification development for the shenasa name-lookup service: a shallow
embedding of its cache layer (`src/utils/cache.ts`), rate limiter
(`src/utils/rate-limiter.ts`), API-key manager (`src/utils/api-key.ts`),
the app middleware chain (API-key authentication and rate limiting), and
the batch name-processing endpoint.

Modelling conventions:
- TS `Map<string, α>` and keyed database tables become total functions
  `String → Option α` (`Store α`); point update models `Map.set` / upsert.
- `Date.now()` timestamps and millisecond durations are `Int`, passed
  explicitly as a `now` argument to each operation.
- Fallible persistent-store calls (wrapped in `try/catch` in the source)
  take an explicit `l2fail : Bool`; when `true` the call throws and the
  `catch` branch runs (the operation is skipped and only logged).
- JSON serialization round-trips (`JSON.parse (JSON.stringify v) = v`) are
  modelled as the identity, so cache values keep their type `V`.
-/

namespace Shenasa

/-- A TS `Map<string, α>` / keyed table: total function from keys to
optional entries. -/
abbrev Store (α : Type) : Type := String → Option α

/-- TS `map.set(key, v)` / keyed upsert: point update. -/
def Store.set {α : Type} (s : Store α) (k : String) (v : α) : Store α :=
  fun k' => if k' = k then some v else s k'

/-- TS `map.delete(key)` / keyed delete (idempotent on absent keys). -/
def Store.del {α : Type} (s : Store α) (k : String) : Store α :=
  fun k' => if k' = k then none else s k'

/-! ## Cache layer (`src/utils/cache.ts`, class `CacheManager`) -/

/-- An entry of either cache tier: `{ value, expiresAt }` in the memory
map, `{ value, expiresAt }` row in the `cacheEntry` table. -/
structure CacheEntry (V : Type) where
  value : V
  expiresAt : Int
deriving DecidableEq

/-- A `CacheManager` instance: its configured key prefix
(`options.prefix`, TS-optional) and its private in-process `memoryCache`
map (L1).  The shared persistent `cacheEntry` table (L2) is passed to
each operation explicitly. -/
structure CacheManager (V : Type) where
  pfx : Option String
  memoryCache : Store (CacheEntry V)

/-- Source: `this.defaultTTL = 3600` seconds (1 hour). -/
def defaultTTL : Int := 3600

/-- Source `getKey`: `this.options.prefix ? {prefix}:{key} : key`.
A TS empty-string prefix is falsy, hence applies no prefix. -/
def CacheManager.getKey {V : Type} (cm : CacheManager V) (key : String) : String :=
  match cm.pfx with
  | some p => if p = "" then key else p ++ ":" ++ key
  | none => key

/-- The database half of `CacheManager.get`: the `try` block reading the
`cacheEntry` table, promoting an unexpired row into the memory cache.  On
a thrown L2 read (`l2fail`) the `catch` logs and the method returns
`null`. -/
def CacheManager.getDb {V : Type} (cm : CacheManager V) (db : Store (CacheEntry V))
    (now : Int) (l2fail : Bool) (cacheKey : String) : Option V × CacheManager V :=
  if l2fail then (none, cm)
  else
    match db cacheKey with
    | some dbItem =>
      if now < dbItem.expiresAt then
        (some dbItem.value, ⟨cm.pfx, cm.memoryCache.set cacheKey dbItem⟩)
      else (none, cm)
    | none => (none, cm)

/-- Source `CacheManager.get`: check the memory cache first (hit only when
`expiresAt > Date.now()`), then fall through to the database tier.
Returns the observed value and the possibly-updated instance. -/
def CacheManager.get {V : Type} (cm : CacheManager V) (db : Store (CacheEntry V))
    (now : Int) (l2fail : Bool) (key : String) : Option V × CacheManager V :=
  match cm.memoryCache (cm.getKey key) with
  | some memoryItem =>
    if now < memoryItem.expiresAt then (some memoryItem.value, cm)
    else cm.getDb db now l2fail (cm.getKey key)
  | none => cm.getDb db now l2fail (cm.getKey key)

/-- The TS expression `ttl || this.defaultTTL`: an absent (`undefined`)
or falsy (`0`) ttl falls back to the default. -/
def effectiveTTL (ttl : Option Int) : Int :=
  match ttl with
  | some t => if t = 0 then defaultTTL else t
  | none => defaultTTL

/-- Source `CacheManager.set`: `expiresAt = now + (ttl || defaultTTL) * 1000`,
write the memory cache unconditionally, then upsert the database row
inside `try/catch` (skipped when the write throws). -/
def CacheManager.set {V : Type} (cm : CacheManager V) (db : Store (CacheEntry V))
    (now : Int) (key : String) (value : V) (ttl : Option Int) (l2fail : Bool) :
    CacheManager V × Store (CacheEntry V) :=
  let cacheKey := cm.getKey key
  let expiresAt : Int := now + effectiveTTL ttl * 1000
  (⟨cm.pfx, cm.memoryCache.set cacheKey ⟨value, expiresAt⟩⟩,
    if l2fail then db else db.set cacheKey ⟨value, expiresAt⟩)

/-- Source `CacheManager.delete`: remove from the memory cache, then delete the
database row inside `try/catch` (a missing row throws in the ORM and is
swallowed; either way the row is gone unless the call failed). -/
def CacheManager.delete {V : Type} (cm : CacheManager V) (db : Store (CacheEntry V))
    (key : String) (l2fail : Bool) : CacheManager V × Store (CacheEntry V) :=
  let cacheKey := cm.getKey key
  (⟨cm.pfx, cm.memoryCache.del cacheKey⟩,
    if l2fail then db else db.del cacheKey)

/-- Source `CacheManager.clear`: `memoryCache.clear()` plus
`cacheEntry.deleteMany({})` — the bulk delete carries no prefix
filter and empties the whole shared table. -/
def CacheManager.clear {V : Type} (cm : CacheManager V) (db : Store (CacheEntry V))
    (l2fail : Bool) : CacheManager V × Store (CacheEntry V) :=
  (⟨cm.pfx, fun _ => none⟩, if l2fail then db else fun _ => none)

/-- Source `CacheManager.cleanExpired`: sweep the memory cache removing entries
with `expiresAt <= now`; bulk-delete database rows with
`expiresAt <= now` (again with no prefix filter). -/
def CacheManager.cleanExpired {V : Type} (cm : CacheManager V)
    (db : Store (CacheEntry V)) (now : Int) (l2fail : Bool) :
    CacheManager V × Store (CacheEntry V) :=
  (⟨cm.pfx, fun k =>
      match cm.memoryCache k with
      | some item => if item.expiresAt ≤ now then none else some item
      | none => none⟩,
    if l2fail then db
    else fun k =>
      match db k with
      | some e => if e.expiresAt ≤ now then none else some e
      | none => none)

/-- One cache operation, for stating properties of operation sequences. -/
inductive CacheOp (V : Type) where
  | get (key : String)
  | set (key : String) (value : V) (ttl : Option Int)
  | delete (key : String)
  | clear
  | cleanExpired
deriving DecidableEq

/-- Apply one operation to an instance and the shared database tier,
keeping only the resulting state. -/
def applyOp {V : Type} (cm : CacheManager V) (db : Store (CacheEntry V))
    (now : Int) (l2fail : Bool) : CacheOp V → CacheManager V × Store (CacheEntry V)
  | .get key => ((cm.get db now l2fail key).2, db)
  | .set key value ttl => cm.set db now key value ttl l2fail
  | .delete key => cm.delete db key l2fail
  | .clear => cm.clear db l2fail
  | .cleanExpired => cm.cleanExpired db now l2fail

/-! ## Rate limiter (`src/utils/rate-limiter.ts`) -/

/-- A `MemoryStore` counter: `{ count, resetTime }`. -/
structure RateCounter where
  count : Nat
  resetTime : Int
deriving DecidableEq

/-- The `MemoryStore.hits` map. -/
abbrev HitStore : Type := Store RateCounter

/-- Source `MemoryStore.increment`: fixed-window counting with a hard-coded
`now + 60000` window (the source comment reads "1 minute window").
Returns the updated map, `totalHits` and `timeToExpire`. -/
def MemoryStore.increment (hits : HitStore) (key : String) (now : Int) :
    HitStore × Nat × Int :=
  match hits key with
  | none => (hits.set key ⟨1, now + 60000⟩, 1, 60000)
  | some current =>
    if current.resetTime ≤ now then
      (hits.set key ⟨1, now + 60000⟩, 1, 60000)
    else
      (hits.set key ⟨current.count + 1, current.resetTime⟩, current.count + 1,
        current.resetTime - now)

/-- The four access tiers. -/
inductive Tier where
  | FREE
  | BASIC
  | PREMIUM
  | ENTERPRISE
deriving DecidableEq

/-- One row of `rateLimitTiers`: `{ requests, window }`. -/
structure TierLimit where
  requests : Nat
  window : Int
deriving DecidableEq

/-- Source `rateLimitTiers`: the tier table (all windows commented "per hour"). -/
def rateLimitTiers : Tier → TierLimit
  | .FREE => ⟨100, 3600000⟩
  | .BASIC => ⟨1000, 3600000⟩
  | .PREMIUM => ⟨10000, 3600000⟩
  | .ENTERPRISE => ⟨100000, 3600000⟩

/-- Source `RateLimitConfig` (the `message` and `keyGenerator` fields are
modelled at the call sites). -/
structure RateLimitConfig where
  windowMs : Int
  max : Nat

/-- The `X-RateLimit-Limit` / `X-RateLimit-Remaining` headers emitted by
the middleware (`remaining = Math.max(0, max - totalHits)`, which is
exactly truncated `Nat` subtraction). -/
structure RateLimitHeaders where
  limit : Nat
  remaining : Nat
deriving DecidableEq

/-- Outcome of the rate-limiting middleware: a 429 JSON rejection with a
`Retry-After` header, or fall-through to `next()`. -/
inductive AdmitResult where
  | rejected (status code : Nat) (retryAfter : Int)
  | allowed
deriving DecidableEq

/-- The middleware returned by `createRateLimiter`, applied to one
request: increment the store under the resolved key, emit quota headers,
and reject with HTTP 429 / code 42901 and
`Retry-After = Math.ceil(timeToExpire / 1000)` when
`totalHits > config.max`. -/
def createRateLimiter (config : RateLimitConfig) (hits : HitStore) (key : String)
    (now : Int) : HitStore × RateLimitHeaders × AdmitResult :=
  let r := MemoryStore.increment hits key now
  let headers : RateLimitHeaders := ⟨config.max, config.max - r.2.1⟩
  if config.max < r.2.1 then
    (r.1, headers, .rejected 429 42901 ((r.2.2 + 999) / 1000))
  else (r.1, headers, .allowed)

/-- The configuration the app installs the limiter with
(`createRateLimiter({ windowMs: 3600000, max: 100, keyGenerator … })`). -/
def appRateLimitConfig : RateLimitConfig := ⟨3600000, 100⟩

/-- The app's rate-limiting middleware for a request whose authenticated
tier is `tier` and resolved identifier is `key`.  The `keyGenerator`
computes `rateLimitTiers[tier].requests` and stores it on the context as
`rateLimitMax`, but `createRateLimiter` never reads that field: admission
is decided against `config.max` alone. -/
def appRateLimit (tier : Tier) (hits : HitStore) (key : String) (now : Int) :
    HitStore × RateLimitHeaders × AdmitResult :=
  let rateLimitMax := (rateLimitTiers tier).requests
  let _ := rateLimitMax
  createRateLimiter appRateLimitConfig hits key now

/-! ## API-key authentication middleware (app entry file) -/

/-- The data of a successful `validateApiKey` used by the middleware. -/
structure ValidationInfo where
  id : String
  tier : Tier
  requestLimit : Nat
deriving DecidableEq

/-- Outcome of the authentication middleware: a JSON rejection, or
fall-through to `next()` with the resolved tier stored on the context. -/
inductive AuthOutcome where
  | rejected (status code : Nat)
  | proceed (tier : Tier)
deriving DecidableEq

/-- The API-key authentication middleware: `tier` starts as `"FREE"`;
when an `x-api-key` header is present, a failed validation returns HTTP
401 / code 40101 and a successful one overwrites `tier` with the
credential's tier.  `validateApiKey` is abstracted as a function from the
presented key to `none` (isValid false) or the validated info. -/
def apiKeyAuthMiddleware (validateApiKey : String → Option ValidationInfo)
    (header : Option String) : AuthOutcome :=
  match header with
  | none => .proceed .FREE
  | some apiKey =>
    match validateApiKey apiKey with
    | none => .rejected 401 40101
    | some validation => .proceed validation.tier

/-! ## API-key manager (`src/utils/api-key.ts`, class `ApiKeyManager`) -/

/-- A row of the `apiKey` table. -/
structure ApiKeyRec where
  id : String
  tier : Tier
  requestLimit : Nat
  requestCount : Nat
  isActive : Bool
  lastUsedAt : Option Int
deriving DecidableEq

/-- The `apiKey` sub-object returned by a successful `validateApiKey`. -/
structure ApiKeyInfo where
  id : String
  tier : Tier
  requestLimit : Nat
  requestCount : Nat
  isActive : Bool
deriving DecidableEq

/-- The `apiKey` table, keyed by the (unique) key string. -/
abbrev ApiKeyDB : Type := Store ApiKeyRec

/-- The `requestLog` table: `(apiKey, createdAt)` rows. -/
abbrev RequestLog : Type := List (String × Int)

/-- Source `requestLog.count({ apiKey: key, createdAt: { gte: oneHourAgo } })`
with `oneHourAgo = now - 3600000`. -/
def recentRequestCount (logs : RequestLog) (key : String) (now : Int) : Nat :=
  (logs.filter (fun entry => entry.1 == key && decide (now - 3600000 ≤ entry.2))).length

/-- Source `ApiKeyManager.validateApiKey`: fail closed if the key is absent or
inactive; fail closed if `recentRequests >= requestLimit` (the secondary
hourly cap); otherwise update `lastUsedAt` and return the credential
data.  Returns (`isValid`, optional `apiKey` object) and the updated
table. -/
def validateApiKey (db : ApiKeyDB) (logs : RequestLog) (now : Int) (key : String) :
    (Bool × Option ApiKeyInfo) × ApiKeyDB :=
  match db key with
  | none => ((false, none), db)
  | some apiKey =>
    if apiKey.isActive = false then ((false, none), db)
    else if apiKey.requestLimit ≤ recentRequestCount logs key now then
      ((false, none), db)
    else
      ((true, some ⟨apiKey.id, apiKey.tier, apiKey.requestLimit,
          apiKey.requestCount, apiKey.isActive⟩),
        db.set key { apiKey with lastUsedAt := some now })

/-- Source `ApiKeyManager.deactivateApiKey`: set `isActive = false`; the ORM
update throws on a missing row, caught and reported as `false`. -/
def deactivateApiKey (db : ApiKeyDB) (key : String) : ApiKeyDB × Bool :=
  match db key with
  | none => (db, false)
  | some apiKey => (db.set key { apiKey with isActive := false }, true)

/-! ## Batch endpoint (`processName` and the chunked loop) -/

/-- What one name's lookup path observes inside `processName`: a cache
hit, a database row, no row, or a thrown error (caught per item). -/
inductive LookupOutcome where
  | cached (gender enName : Option String) (popularity : Nat)
  | found (gender enName : Option String) (popularity : Nat)
  | notFound
  | failure
deriving DecidableEq

/-- One element of the batch response.  `confidence` is scaled by 100
(1.0 ↦ 100, 0.95 ↦ 95, 0.0 ↦ 0) to stay in `Nat`. -/
structure BatchItem where
  name : String
  gender : Option String
  enName : Option String
  popularity : Option Nat
  confidence : Nat
deriving DecidableEq

/-- Source `processName`: cache hit → confidence 1.0; database row → 0.95;
no row → nulls with confidence 0.0; a thrown error is caught and yields
the same zero-confidence null result.  `popularity` is `undefined`
unless `includePopularity`. -/
def processName (oracle : String → LookupOutcome) (includePopularity : Bool)
    (name : String) : BatchItem :=
  match oracle name with
  | .cached g e pop => ⟨name, g, e, if includePopularity then some pop else none, 100⟩
  | .found g e pop => ⟨name, g, e, if includePopularity then some pop else none, 95⟩
  | .notFound => ⟨name, none, none, if includePopularity then some 0 else none, 0⟩
  | .failure => ⟨name, none, none, if includePopularity then some 0 else none, 0⟩

/-- Source: `const batchSize = 10`. -/
def batchSize : Nat := 10

/-- The chunked loop of the batch handler: process `names` in sub-batches
of `batchSize`, appending results and accumulating `errorCount` as the
number of results with `confidence === 0.0`. -/
def processBatchLoop (oracle : String → LookupOutcome) (includePopularity : Bool) :
    List String → List BatchItem × Nat
  | [] => ([], 0)
  | name :: rest =>
    let batchResults :=
      ((name :: rest).take batchSize).map (processName oracle includePopularity)
    let next := processBatchLoop oracle includePopularity ((name :: rest).drop batchSize)
    (batchResults ++ next.1,
      (batchResults.filter (fun r => r.confidence == 0)).length + next.2)
termination_by names => names.length
decreasing_by
  simp [batchSize, List.length_drop]
  omega

/-! ## Concrete instances used by witnesses and counterexamples -/

/-- A hit store holding 100 prior hits for a PREMIUM caller's key in a
live window. -/
def c1Hits : HitStore :=
  fun k => if k = "api:premium-key" then some ⟨100, 50000⟩ else none

/-- A hit store with a live-window counter for `"k"`. -/
def c2Hits : HitStore := fun k => if k = "k" then some ⟨2, 60000⟩ else none

/-- A cache instance with prefix `"a"` and empty L1. -/
def c3A : CacheManager String := ⟨some "a", fun _ => none⟩

/-- A cache instance with prefix `"b"` and empty L1. -/
def c3B : CacheManager String := ⟨some "b", fun _ => none⟩

/-- A shared database tier holding instance `c3A`'s entry `"a:k"`. -/
def c3db : Store (CacheEntry String) :=
  fun k => if k = "a:k" then some ⟨"v", 10000⟩ else none

/-- An empty cache instance over `Nat` values, with no prefix. -/
def c4cm : CacheManager Nat := ⟨none, fun _ => none⟩

/-- A database tier holding an unexpired entry at `"k"`. -/
def c4db : Store (CacheEntry Nat) := fun k => if k = "k" then some ⟨7, 100⟩ else none

/-- An empty database tier over `Nat` values. -/
def emptyNatDb : Store (CacheEntry Nat) := fun _ => none

/-- A validation oracle knowing one BASIC credential `"good"`. -/
def c7Validate : String → Option ValidationInfo :=
  fun k => if k = "good" then some ⟨"id", Tier.BASIC, 1000⟩ else none

/-- An active FREE credential with `requestLimit = 1`. -/
def c8Key : ApiKeyRec := ⟨"id1", Tier.FREE, 1, 0, true, none⟩

/-- A credential table holding `c8Key` under `"sk_1"`. -/
def c8DB : ApiKeyDB := fun k => if k = "sk_1" then some c8Key else none

/-- A deactivated BASIC credential. -/
def c8KeyInactive : ApiKeyRec := ⟨"id2", Tier.BASIC, 1000, 0, false, none⟩

/-- A credential table holding `c8KeyInactive` under `"sk_2"`. -/
def c8DBI : ApiKeyDB := fun k => if k = "sk_2" then some c8KeyInactive else none

/-- A request log with exactly one recent request attributed to `"sk_1"`. -/
def c8Logs : RequestLog := [("sk_1", 3600000)]

/-- The batch scenario oracle: three names found, two failing. -/
def c9Oracle : String → LookupOutcome :=
  fun name =>
    if name = "n4" || name = "n5" then .failure
    else .found (some "MALE") (some "x") 5

/-- The batch scenario names. -/
def c9Names : List String := ["n1", "n2", "n3", "n4", "n5"]

/-! ## Helper lemmas -/

theorem Store.set_self {α : Type} (s : Store α) (k : String) (v : α) :
    s.set k v k = some v := by
  simp [Store.set]

theorem Store.set_other {α : Type} (s : Store α) (k k' : String) (v : α)
    (h : k' ≠ k) : s.set k v k' = s k' := by
  simp [Store.set, h]

theorem Store.del_other {α : Type} (s : Store α) (k k' : String)
    (h : k' ≠ k) : s.del k k' = s k' := by
  simp [Store.del, h]

/-- Reading lemma: `getDb` reads the database tier only at the supplied key. -/
theorem CacheManager.getDb_congr {V : Type} (cm : CacheManager V)
    (db1 db2 : Store (CacheEntry V)) (now : Int) (l2fail : Bool) (cacheKey : String)
    (h : db1 cacheKey = db2 cacheKey) :
    cm.getDb db1 now l2fail cacheKey = cm.getDb db2 now l2fail cacheKey := by
  unfold CacheManager.getDb
  rw [h]

/-- Reading lemma: `get` reads the database tier only at the instance's own prefixed
key: equal rows there give equal observations. -/
theorem CacheManager.get_congr {V : Type} (cm : CacheManager V)
    (db1 db2 : Store (CacheEntry V)) (now : Int) (l2fail : Bool) (key : String)
    (h : db1 (cm.getKey key) = db2 (cm.getKey key)) :
    (cm.get db1 now l2fail key).1 = (cm.get db2 now l2fail key).1 := by
  unfold CacheManager.get
  rw [CacheManager.getDb_congr cm db1 db2 now l2fail (cm.getKey key) h]

/-- Rows expired at `now` are observationally equal to absent rows:
`get` returns the same value over two database tiers whose rows at the
instance's key agree except possibly on entries already expired. -/
theorem CacheManager.get_congr_expired {V : Type} (cm : CacheManager V)
    (db1 db2 : Store (CacheEntry V)) (now : Int) (l2fail : Bool) (key : String)
    (h1 : ∀ e, db1 (cm.getKey key) = some e → e.expiresAt ≤ now)
    (h2 : ∀ e, db2 (cm.getKey key) = some e → e.expiresAt ≤ now) :
    (cm.get db1 now l2fail key).1 = (cm.get db2 now l2fail key).1 := by
  have hdb : ∀ db : Store (CacheEntry V),
      (∀ e, db (cm.getKey key) = some e → e.expiresAt ≤ now) →
      (cm.getDb db now l2fail (cm.getKey key)).1 = none := by
    intro db h
    unfold CacheManager.getDb
    split
    · rfl
    · cases hd : db (cm.getKey key) with
      | none => simp [hd]
      | some e =>
        have := h e hd
        simp [hd, if_neg (not_lt.mpr this)]
  unfold CacheManager.get
  cases hm : cm.memoryCache (cm.getKey key) with
  | none => simp [hdb db1 h1, hdb db2 h2]
  | some item =>
    by_cases hexp : now < item.expiresAt
    · simp [hexp]
    · simp [hexp, hdb db1 h1, hdb db2 h2]

/-- A successful `getDb` observation comes from an unexpired database
row at the supplied key. -/
theorem CacheManager.getDb_some {V : Type} (cm : CacheManager V)
    (db : Store (CacheEntry V)) (now : Int) (l2fail : Bool) (cacheKey : String)
    (v : V) (hv : (cm.getDb db now l2fail cacheKey).1 = some v) :
    ∃ e, db cacheKey = some e ∧ now < e.expiresAt ∧ e.value = v := by
  unfold CacheManager.getDb at hv
  cases l2fail with
  | true => simp at hv
  | false =>
    cases hd : db cacheKey with
    | none => simp [hd] at hv
    | some e =>
      by_cases he : now < e.expiresAt
      · refine ⟨e, rfl, he, ?_⟩
        simp [hd, he] at hv
        exact hv
      · simp [hd, he] at hv

/-- Reading lemma: `get` immediately after `set` on the same key, while the written
entry is unexpired, observes the written value from the memory tier. -/
theorem CacheManager.get_after_set_hit {V : Type} (cm : CacheManager V)
    (db : Store (CacheEntry V)) (now now' : Int) (key : String) (value : V)
    (ttl : Option Int) (l2 l2' : Bool)
    (h : now' < now + effectiveTTL ttl * 1000) :
    ((cm.set db now key value ttl l2).1.get (cm.set db now key value ttl l2).2
      now' l2' key).1 = some value := by
  simp [CacheManager.set, CacheManager.get, CacheManager.getKey, Store.set, h]

/-- Reading lemma: `get` after a `set` whose entry has already expired at read time
observes nothing (the L2 write did not fail, so the database row was
overwritten too). -/
theorem CacheManager.get_after_set_expired {V : Type} (cm : CacheManager V)
    (db : Store (CacheEntry V)) (now now' : Int) (key : String) (value : V)
    (ttl : Option Int) (l2' : Bool)
    (h : ¬ now' < now + effectiveTTL ttl * 1000) :
    ((cm.set db now key value ttl false).1.get
      (cm.set db now key value ttl false).2 now' l2' key).1 = none := by
  cases l2' with
  | true =>
    simp [CacheManager.set, CacheManager.get, CacheManager.getDb,
      CacheManager.getKey, Store.set, h]
  | false =>
    simp [CacheManager.set, CacheManager.get, CacheManager.getDb,
      CacheManager.getKey, Store.set, h]

/-! ## Claims -/

/-- Claim C1 (code-bug evaluation): the app's rate-limiting middleware
decides admission against `config.max = 100` for every tier — the tier
threshold computed by the `keyGenerator` is stored in `rateLimitMax` but
never read.  A PREMIUM caller's 101st request inside a live window is
rejected (HTTP 429, code 42901, `Retry-After` 50 s, `X-RateLimit-Limit`
100) even though `101 ≤ rateLimitTiers[PREMIUM].requests = 10000`. -/
theorem C1_tier_quota_ignored :
    (appRateLimit Tier.PREMIUM c1Hits "api:premium-key" 0).2.2 =
      AdmitResult.rejected 429 42901 50 ∧
    (appRateLimit Tier.PREMIUM c1Hits "api:premium-key" 0).2.1.limit = 100 ∧
    (MemoryStore.increment c1Hits "api:premium-key" 0).2.1 = 101 ∧
    101 ≤ (rateLimitTiers Tier.PREMIUM).requests := by
  decide

/-- Claim C2 counterexample: `MemoryStore.increment` opens a 60,000 ms
(one-minute) window, not a one-hour one — a fresh increment returns
`timeToExpire = 60000 ≠ 3600000`, and a counter whose minute has elapsed
resets to `totalHits = 1` at `now = 60000` instead of continuing to count
inside a one-hour window. -/
theorem C2_window_counterexample :
    (MemoryStore.increment (fun _ => none) "ip:1.2.3.4" 0).2 = (1, 60000) ∧
    (60000 : Int) ≠ 3600000 ∧
    (MemoryStore.increment c2Hits "k" 60000).2 = (1, 60000) := by
  decide

/-- Claim C2 (amended: the fixed window lasts one minute, 60,000 ms):
for every identifier, if no counter exists or the existing counter's
window has elapsed, `increment` resets the counter to `count = 1` with a
fresh `now + 60000` window and returns `totalHits = 1`; otherwise it
increments the count — so the stored count never decreases within a
window — and returns the updated count and the remaining window time. -/
theorem C2_fixed_window_one_minute (hits : HitStore) (key : String) (now : Int) :
    (hits key = none →
      MemoryStore.increment hits key now = (hits.set key ⟨1, now + 60000⟩, 1, 60000)) ∧
    (∀ current, hits key = some current → current.resetTime ≤ now →
      MemoryStore.increment hits key now = (hits.set key ⟨1, now + 60000⟩, 1, 60000)) ∧
    (∀ current, hits key = some current → now < current.resetTime →
      MemoryStore.increment hits key now =
        (hits.set key ⟨current.count + 1, current.resetTime⟩, current.count + 1,
          current.resetTime - now) ∧
      current.count ≤ current.count + 1) := by
  refine ⟨?_, ?_, ?_⟩
  · intro h
    simp [MemoryStore.increment, h]
  · intro current h hexp
    simp [MemoryStore.increment, h, hexp]
  · intro current h hlive
    simp [MemoryStore.increment, h, not_le.mpr hlive]

/-- Witness for `C2_fixed_window_one_minute` at concrete inputs: a fresh
key, an elapsed window, and a live window. -/
theorem C2_fixed_window_one_minute_witness :
    (MemoryStore.increment (fun _ => none) "k" 5 =
      (Store.set (fun _ => none) "k" ⟨1, 60005⟩, 1, 60000)) ∧
    (MemoryStore.increment c2Hits "k" 70000 =
      (c2Hits.set "k" ⟨1, 130000⟩, 1, 60000)) ∧
    (MemoryStore.increment c2Hits "k" 30000 =
      (c2Hits.set "k" ⟨3, 60000⟩, 3, 30000)) :=
  ⟨(C2_fixed_window_one_minute (fun _ => none) "k" 5).1 rfl,
    (C2_fixed_window_one_minute c2Hits "k" 70000).2.1 ⟨2, 60000⟩ (by decide) (by decide),
    ((C2_fixed_window_one_minute c2Hits "k" 30000).2.2 ⟨2, 60000⟩ (by decide)
      (by decide)).1⟩

/-- Claim C3 counterexample: instance `c3B` (prefix `"b"`) runs `clear()`
on the store shared with `c3A` (prefix `"a"`); the bulk delete carries no
prefix filter, so `c3A`'s entry at `"a:k"` — present before — is removed
by the other instance's operation. -/
theorem C3_clear_counterexample :
    c3db "a:k" = some ⟨"v", 10000⟩ ∧
    (c3B.clear c3db false).2 "a:k" = none := by
  decide

/-- Claim C3 (amended: isolation holds for `get`/`set`/`delete`, and for
`cleanExpired` up to already-expired — hence never observable — entries,
provided the two prefixes generate disjoint physical key spaces; `clear`,
excluded here, empties the whole shared store regardless of prefix):
any non-`clear` operation run by instance `B` preserves every unexpired
entry of instance `A`'s key space in the shared store, and leaves the
value observed by any later `A.get` unchanged. -/
theorem C3_prefix_isolation (V : Type) (A B : CacheManager V)
    (hdisj : ∀ k1 k2 : String, A.getKey k1 ≠ B.getKey k2)
    (db : Store (CacheEntry V)) (t now : Int) (hle : t ≤ now) (l2fail : Bool)
    (o : CacheOp V) (hno : o ≠ CacheOp.clear) :
    (∀ k e, db (A.getKey k) = some e → t < e.expiresAt →
      (applyOp B db t l2fail o).2 (A.getKey k) = some e) ∧
    (∀ (k : String) (l2f2 : Bool),
      (A.get ((applyOp B db t l2fail o).2) now l2f2 k).1 =
        (A.get db now l2f2 k).1) := by
  cases o with
  | get key => exact ⟨fun k e he _ => he, fun k l2f2 => rfl⟩
  | set key value ttl =>
    constructor
    · intro k e he _
      show (if l2fail then db else db.set (B.getKey key) _) (A.getKey k) = some e
      cases l2fail with
      | true => simpa using he
      | false => simpa [Store.set_other _ _ _ _ (hdisj k key)] using he
    · intro k l2f2
      apply CacheManager.get_congr
      show (if l2fail then db else db.set (B.getKey key) _) (A.getKey k) = db (A.getKey k)
      cases l2fail with
      | true => rfl
      | false => exact Store.set_other _ _ _ _ (hdisj k key)
  | delete key =>
    constructor
    · intro k e he _
      show (if l2fail then db else db.del (B.getKey key)) (A.getKey k) = some e
      cases l2fail with
      | true => simpa using he
      | false => simpa [Store.del_other _ _ _ (hdisj k key)] using he
    · intro k l2f2
      apply CacheManager.get_congr
      show (if l2fail then db else db.del (B.getKey key)) (A.getKey k) = db (A.getKey k)
      cases l2fail with
      | true => rfl
      | false => exact Store.del_other _ _ _ (hdisj k key)
  | clear => exact absurd rfl hno
  | cleanExpired =>
    constructor
    · intro k e he hunexp
      show (if l2fail then db else fun kk => _) (A.getKey k) = some e
      cases l2fail with
      | true => simpa using he
      | false =>
        have : ¬ e.expiresAt ≤ t := not_le.mpr hunexp
        simp [he, this]
    · intro k l2f2
      cases l2fail with
      | true => rfl
      | false =>
        cases hd : db (A.getKey k) with
        | none =>
          apply CacheManager.get_congr
          simp [applyOp, CacheManager.cleanExpired, hd]
        | some e =>
          by_cases hexp : e.expiresAt ≤ t
          · apply CacheManager.get_congr_expired
            · intro e' he'
              have hrow : (applyOp B db t false (CacheOp.cleanExpired) :
                  CacheManager V × Store (CacheEntry V)).2 (A.getKey k) = none := by
                simp [applyOp, CacheManager.cleanExpired, hd, hexp]
              rw [hrow] at he'
              exact absurd he' (by simp)
            · intro e' he'
              rw [hd] at he'
              cases he'
              exact le_trans hexp hle
          · apply CacheManager.get_congr
            simp [applyOp, CacheManager.cleanExpired, hd, hexp]

/-- The prefixes `"a"` and `"b"` generate disjoint physical key spaces. -/
theorem c3_getKey_disjoint :
    ∀ k1 k2 : String, c3A.getKey k1 ≠ c3B.getKey k2 := by
  intro k1 k2 h
  have hd : ('a' :: ':' :: k1.data : List Char) = 'b' :: ':' :: k2.data :=
    congrArg String.data h
  injection hd with hhead _
  exact absurd hhead (by decide)

/-- Witness for `C3_prefix_isolation`: a concrete `set` by `c3B` leaves
`c3A`'s row at `"a:k"` in place and `c3A.get "k"` unchanged. -/
theorem C3_prefix_isolation_witness :
    (applyOp c3B c3db 0 false (CacheOp.set "k" "w" (some 5))).2 "a:k" =
      some ⟨"v", 10000⟩ ∧
    (c3A.get ((applyOp c3B c3db 0 false (CacheOp.set "k" "w" (some 5))).2)
        0 false "k").1 = (c3A.get c3db 0 false "k").1 :=
  have h := C3_prefix_isolation String c3A c3B c3_getKey_disjoint c3db 0 0 le_rfl
    false (CacheOp.set "k" "w" (some 5)) (fun hx => CacheOp.noConfusion hx)
  ⟨h.1 "k" ⟨"v", 10000⟩ (by decide) (by decide), h.2 "k" false⟩

/-- Claim C4: `get` never returns an entry whose `expiresAt` is at or
before the current time as a hit — any observed value comes from an
entry, in the memory tier or the database tier, that is strictly
unexpired; and `set(k, v, -1)` (already expired) followed by `get(k)` at
any time at or after the write returns absent. -/
theorem C4_no_expired_hit (V : Type) (cm : CacheManager V)
    (db : Store (CacheEntry V)) (now : Int) (l2fail : Bool) (key : String) (v : V) :
    ((cm.get db now l2fail key).1 = some v →
      (∃ e, cm.memoryCache (cm.getKey key) = some e ∧ now < e.expiresAt ∧
        e.value = v) ∨
      (∃ e, db (cm.getKey key) = some e ∧ now < e.expiresAt ∧ e.value = v)) ∧
    (∀ (w : V) (l2' : Bool) (now' : Int), now ≤ now' →
      ((cm.set db now key w (some (-1)) false).1.get
        (cm.set db now key w (some (-1)) false).2 now' l2' key).1 = none) := by
  constructor
  · intro hv
    unfold CacheManager.get at hv
    cases hm : cm.memoryCache (cm.getKey key) with
    | some item =>
      rw [hm] at hv
      by_cases hexp : now < item.expiresAt
      · left
        refine ⟨item, rfl, hexp, ?_⟩
        simp [hexp] at hv
        exact hv
      · right
        apply CacheManager.getDb_some cm db now l2fail (cm.getKey key) v
        simpa [hexp] using hv
    | none =>
      simp only [hm] at hv
      exact Or.inr (CacheManager.getDb_some cm db now l2fail (cm.getKey key) v hv)
  · intro w l2' now' hnow
    apply CacheManager.get_after_set_expired
    have he : effectiveTTL (some (-1)) = -1 := by decide
    rw [he]
    omega

/-- Witness for `C4_no_expired_hit`: a concrete database hit and a
concrete already-expired write. -/
theorem C4_no_expired_hit_witness :
    ((∃ e, c4cm.memoryCache (c4cm.getKey "k") = some e ∧ (0 : Int) < e.expiresAt ∧
        e.value = 7) ∨
      (∃ e, c4db (c4cm.getKey "k") = some e ∧ (0 : Int) < e.expiresAt ∧
        e.value = 7)) ∧
    ((c4cm.set c4db 5 "k" 9 (some (-1)) false).1.get
      (c4cm.set c4db 5 "k" 9 (some (-1)) false).2 5 false "k").1 = none :=
  ⟨(C4_no_expired_hit Nat c4cm c4db 0 false "k" 7).1 (by decide),
    (C4_no_expired_hit Nat c4cm c4db 5 false "k" 7).2 9 false 5 le_rfl⟩

/-- Claim C5: storage-backend failures never propagate.  A failed L2
read inside `get` (with the memory tier missing or expired) degrades to
a miss and leaves the instance unchanged; a failed L2 write inside `set`
leaves the database tier untouched while the L1 write stands, so an
immediate in-process `get` still observes the value. -/
theorem C5_backend_failure_swallowed (V : Type) (cm : CacheManager V)
    (db : Store (CacheEntry V)) (now : Int) (key : String) :
    ((match cm.memoryCache (cm.getKey key) with
      | some item => item.expiresAt ≤ now
      | none => True) →
      cm.get db now true key = (none, cm)) ∧
    (∀ (value : V) (t : Int), 0 < t →
      (cm.set db now key value (some t) true).2 = db ∧
      ∀ l2' : Bool,
        ((cm.set db now key value (some t) true).1.get
          (cm.set db now key value (some t) true).2 now l2' key).1 = some value) := by
  constructor
  · intro hmem
    unfold CacheManager.get CacheManager.getDb
    cases hm : cm.memoryCache (cm.getKey key) with
    | none => simp
    | some item =>
      rw [hm] at hmem
      simp [not_lt.mpr hmem]
  · intro value t ht
    refine ⟨rfl, fun l2' => ?_⟩
    apply CacheManager.get_after_set_hit
    have he : effectiveTTL (some t) = t := by
      simp only [effectiveTTL]
      rw [if_neg (by omega)]
    rw [he]
    omega

/-- Witness for `C5_backend_failure_swallowed` at concrete inputs. -/
theorem C5_backend_failure_swallowed_witness :
    c4cm.get c4db 0 true "k" = (none, c4cm) ∧
    (c4cm.set c4db 0 "k" 9 (some 10) true).2 = c4db ∧
    ((c4cm.set c4db 0 "k" 9 (some 10) true).1.get
      (c4cm.set c4db 0 "k" 9 (some 10) true).2 0 false "k").1 = some 9 :=
  have h := C5_backend_failure_swallowed Nat c4cm c4db 0 "k"
  ⟨h.1 trivial, (h.2 9 10 (by decide)).1, (h.2 9 10 (by decide)).2 false⟩

/-- Claim C6: `set(k, v, ttl)` with `ttl > 0` immediately followed by
`get(k)` returns `v`; and `set` has upsert (replace) semantics — after
`set(k, v1, ttl1)` then `set(k, v2, ttl2)` with `ttl2 > 0`, `get(k)`
returns `v2` only. -/
theorem C6_set_get_upsert (V : Type) (cm : CacheManager V)
    (db : Store (CacheEntry V)) (now : Int) (key : String) (v v1 v2 : V)
    (t t1 t2 : Int) (l2 l2a l2b l2' : Bool) :
    (0 < t →
      ((cm.set db now key v (some t) l2).1.get (cm.set db now key v (some t) l2).2
        now l2' key).1 = some v) ∧
    (0 < t2 →
      (((cm.set db now key v1 (some t1) l2a).1.set
          (cm.set db now key v1 (some t1) l2a).2 now key v2 (some t2) l2b).1.get
        ((cm.set db now key v1 (some t1) l2a).1.set
          (cm.set db now key v1 (some t1) l2a).2 now key v2 (some t2) l2b).2
        now l2' key).1 = some v2) := by
  have hexp : ∀ s : Int, 0 < s → now < now + effectiveTTL (some s) * 1000 := by
    intro s hs
    have he : effectiveTTL (some s) = s := by
      simp only [effectiveTTL]
      rw [if_neg (by omega)]
    rw [he]
    omega
  constructor
  · intro ht
    exact CacheManager.get_after_set_hit _ _ _ _ _ _ _ _ _ (hexp t ht)
  · intro ht2
    exact CacheManager.get_after_set_hit _ _ _ _ _ _ _ _ _ (hexp t2 ht2)

/-- Witness for `C6_set_get_upsert` at concrete inputs. -/
theorem C6_set_get_upsert_witness :
    ((c4cm.set emptyNatDb 0 "k" 1 (some 10) false).1.get
      (c4cm.set emptyNatDb 0 "k" 1 (some 10) false).2 0 false "k").1 = some 1 ∧
    (((c4cm.set emptyNatDb 0 "k" 1 (some 10) false).1.set
        (c4cm.set emptyNatDb 0 "k" 1 (some 10) false).2 0 "k" 2 (some 10) false).1.get
      ((c4cm.set emptyNatDb 0 "k" 1 (some 10) false).1.set
        (c4cm.set emptyNatDb 0 "k" 1 (some 10) false).2 0 "k" 2 (some 10) false).2
      0 false "k").1 = some 2 :=
  have h := C6_set_get_upsert Nat c4cm emptyNatDb 0 "k" 1 1 2 10 10 10
    false false false false
  ⟨h.1 (by decide), h.2 (by decide)⟩

/-- Claim C10: `set(k, v, 0)` does not create an immediately-expired
entry — `ttl || defaultTTL` maps the falsy `0` to the default 3600 s, so
the call is indistinguishable from omitting `ttl`, the stored entry
expires at `now + 3600000` ms, and a `get(k)` any time before that hour
elapses returns `v`. -/
theorem C10_zero_ttl_falls_back (V : Type) (cm : CacheManager V)
    (db : Store (CacheEntry V)) (now : Int) (key : String) (value : V)
    (l2 l2' : Bool) (now' : Int) :
    effectiveTTL (some 0) = 3600 ∧
    cm.set db now key value (some 0) l2 = cm.set db now key value none l2 ∧
    (now' < now + 3600000 →
      ((cm.set db now key value (some 0) l2).1.get
        (cm.set db now key value (some 0) l2).2 now' l2' key).1 = some value) := by
  refine ⟨by decide, rfl, fun h => ?_⟩
  apply CacheManager.get_after_set_hit
  have he : effectiveTTL (some 0) = 3600 := by decide
  rw [he]
  omega

/-- Witness for `C10_zero_ttl_falls_back`: a zero-ttl write read back
just before the default hour elapses. -/
theorem C10_zero_ttl_falls_back_witness :
    ((c4cm.set emptyNatDb 0 "k" 5 (some 0) false).1.get
      (c4cm.set emptyNatDb 0 "k" 5 (some 0) false).2 3599999 false "k").1 = some 5 :=
  (C10_zero_ttl_falls_back Nat c4cm emptyNatDb 0 "k" 5 false false 3599999).2.2
    (by decide)

/-- Claim C7: a presented API key that fails validation is rejected with
an authentication failure (HTTP 401, code 40101), never silently
downgraded; a valid key yields its credential's tier; and the FREE
fallback tier is used exactly when no key is presented (a FREE outcome
with a presented key means the credential itself is FREE-tier). -/
theorem C7_no_silent_downgrade (validate : String → Option ValidationInfo)
    (header : Option String) :
    (∀ k, header = some k → validate k = none →
      apiKeyAuthMiddleware validate header = AuthOutcome.rejected 401 40101) ∧
    (header = none →
      apiKeyAuthMiddleware validate header = AuthOutcome.proceed Tier.FREE) ∧
    (∀ k info, header = some k → validate k = some info →
      apiKeyAuthMiddleware validate header = AuthOutcome.proceed info.tier) ∧
    (apiKeyAuthMiddleware validate header = AuthOutcome.proceed Tier.FREE →
      header = none ∨ ∃ k info, header = some k ∧ validate k = some info ∧
        info.tier = Tier.FREE) := by
  refine ⟨?_, ?_, ?_, ?_⟩
  · intro k hk hv
    subst hk
    simp [apiKeyAuthMiddleware, hv]
  · intro h
    subst h
    rfl
  · intro k info hk hv
    subst hk
    simp [apiKeyAuthMiddleware, hv]
  · intro h
    cases hh : header with
    | none => exact Or.inl rfl
    | some k =>
      right
      rw [hh] at h
      cases hv : validate k with
      | none => simp [apiKeyAuthMiddleware, hv] at h
      | some info =>
        refine ⟨k, info, rfl, hv, ?_⟩
        simpa [apiKeyAuthMiddleware, hv] using h

/-- Witness for `C7_no_silent_downgrade` at a concrete oracle. -/
theorem C7_no_silent_downgrade_witness :
    apiKeyAuthMiddleware c7Validate (some "bad") = AuthOutcome.rejected 401 40101 ∧
    apiKeyAuthMiddleware c7Validate none = AuthOutcome.proceed Tier.FREE ∧
    apiKeyAuthMiddleware c7Validate (some "good") = AuthOutcome.proceed Tier.BASIC ∧
    ((none : Option String) = none ∨ ∃ k info, (none : Option String) = some k ∧
      c7Validate k = some info ∧ info.tier = Tier.FREE) :=
  ⟨(C7_no_silent_downgrade c7Validate (some "bad")).1 "bad" rfl (by decide),
    (C7_no_silent_downgrade c7Validate none).2.1 rfl,
    (C7_no_silent_downgrade c7Validate (some "good")).2.2.1 "good"
      ⟨"id", Tier.BASIC, 1000⟩ rfl (by decide),
    (C7_no_silent_downgrade c7Validate none).2.2.2 rfl⟩

/-- Claim C8 counterexample: the secondary cap already fails closed when
the hourly count merely *reaches* `requestLimit` — for the active
credential `c8Key` (`requestLimit = 1`) with exactly one logged request,
`validateApiKey` returns `isValid = false` although the count does not
*exceed* the limit. -/
theorem C8_cap_reached_counterexample :
    (validateApiKey c8DB c8Logs 3600000 "sk_1").1 = (false, none) ∧
    c8DB "sk_1" = some c8Key ∧
    c8Key.isActive = true ∧
    recentRequestCount c8Logs "sk_1" 3600000 = 1 ∧
    ¬ c8Key.requestLimit < recentRequestCount c8Logs "sk_1" 3600000 := by
  decide

/-- Claim C8 (amended: the secondary cap fails closed when the hourly
count *reaches or exceeds* the captured `requestLimit`, i.e.
`count ≥ requestLimit`): `validateApiKey` fails closed for a missing
credential, an inactive one (in particular at any time after
`deactivateApiKey`, regardless of the quota state), and a reached cap;
otherwise it stores an updated `lastUsedAt` and returns `isValid = true`
with the credential's data. -/
theorem C8_validate_deactivate (db : ApiKeyDB) (logs : RequestLog) (now : Int)
    (key : String) :
    (db key = none → validateApiKey db logs now key = ((false, none), db)) ∧
    (∀ r, db key = some r → r.isActive = false →
      validateApiKey db logs now key = ((false, none), db)) ∧
    (∀ r, db key = some r → r.isActive = true →
      r.requestLimit ≤ recentRequestCount logs key now →
      validateApiKey db logs now key = ((false, none), db)) ∧
    (∀ r, db key = some r → r.isActive = true →
      recentRequestCount logs key now < r.requestLimit →
      validateApiKey db logs now key =
        ((true, some ⟨r.id, r.tier, r.requestLimit, r.requestCount, r.isActive⟩),
          db.set key { r with lastUsedAt := some now })) ∧
    (∀ r, db key = some r → ∀ (logs2 : RequestLog) (now2 : Int),
      (validateApiKey (deactivateApiKey db key).1 logs2 now2 key).1 =
        (false, none)) := by
  refine ⟨?_, ?_, ?_, ?_, ?_⟩
  · intro h
    simp [validateApiKey, h]
  · intro r h hact
    simp [validateApiKey, h, hact]
  · intro r h hact hcap
    simp [validateApiKey, h, hact, hcap]
  · intro r h hact hcap
    simp [validateApiKey, h, hact, not_le.mpr hcap]
  · intro r h logs2 now2
    have hd : (deactivateApiKey db key).1 key = some { r with isActive := false } := by
      simp [deactivateApiKey, h, Store.set_self]
    simp [validateApiKey, hd]

/-- Witness for `C8_validate_deactivate` at concrete tables. -/
theorem C8_validate_deactivate_witness :
    validateApiKey c8DB [] 0 "absent" = ((false, none), c8DB) ∧
    validateApiKey c8DBI [] 0 "sk_2" = ((false, none), c8DBI) ∧
    validateApiKey c8DB c8Logs 3600000 "sk_1" = ((false, none), c8DB) ∧
    validateApiKey c8DB [] 7 "sk_1" =
      ((true, some ⟨"id1", Tier.FREE, 1, 0, true⟩),
        c8DB.set "sk_1" { c8Key with lastUsedAt := some 7 }) ∧
    (validateApiKey (deactivateApiKey c8DB "sk_1").1 c8Logs 99 "sk_1").1 =
      (false, none) :=
  ⟨(C8_validate_deactivate c8DB [] 0 "absent").1 rfl,
    (C8_validate_deactivate c8DBI [] 0 "sk_2").2.1 c8KeyInactive rfl rfl,
    (C8_validate_deactivate c8DB c8Logs 3600000 "sk_1").2.2.1 c8Key rfl rfl
      (by decide),
    (C8_validate_deactivate c8DB [] 7 "sk_1").2.2.2.1 c8Key rfl rfl (by decide),
    (C8_validate_deactivate c8DB c8Logs 99 "sk_1").2.2.2.2 c8Key rfl c8Logs 99⟩

/-- The chunked batch loop computes, for any oracle, exactly the
per-item map of `processName` together with the count of
zero-confidence results. -/
theorem processBatchLoop_spec (oracle : String → LookupOutcome) (incPop : Bool) :
    ∀ (fuel : Nat) (names : List String), names.length ≤ fuel →
      processBatchLoop oracle incPop names =
        (names.map (processName oracle incPop),
          ((names.map (processName oracle incPop)).filter
            (fun r => r.confidence == 0)).length) := by
  intro fuel
  induction fuel with
  | zero =>
    intro names h
    have hnil : names = [] := List.eq_nil_of_length_eq_zero (Nat.le_zero.mp h)
    subst hnil
    simp [processBatchLoop]
  | succ n ih =>
    intro names h
    cases names with
    | nil => simp [processBatchLoop]
    | cons name rest =>
      have hsplit : ((name :: rest).take batchSize).map (processName oracle incPop) ++
          ((name :: rest).drop batchSize).map (processName oracle incPop) =
          (name :: rest).map (processName oracle incPop) := by
        rw [← List.map_append, List.take_append_drop]
      have hlen : ((name :: rest).drop batchSize).length ≤ n := by
        simp only [List.length_drop, List.length_cons, batchSize]
        have : rest.length + 1 ≤ n + 1 := h
        omega
      simp only [processBatchLoop, ih _ hlen]
      rw [← hsplit, List.filter_append, List.length_append]

/-- Claim C9: the batch endpoint processes names in bounded sub-batches
of 10 whose concatenation is exactly the per-item `processName` map, so
a per-item origin failure degrades only that item to a zero-confidence
null result; for the concrete batch of 5 names where the origin fails
for exactly 2 (`c9Oracle`), the response has 5 results, exactly 2 of
them with zero confidence, and `errorCount = 2`. -/
theorem C9_batch_partial_failure :
    (∀ (oracle : String → LookupOutcome) (incPop : Bool) (names : List String),
      (processBatchLoop oracle incPop names).1 =
        names.map (processName oracle incPop) ∧
      (processBatchLoop oracle incPop names).2 =
        ((names.map (processName oracle incPop)).filter
          (fun r => r.confidence == 0)).length) ∧
    ((processBatchLoop c9Oracle false c9Names).1.length = 5 ∧
      ((processBatchLoop c9Oracle false c9Names).1.filter
        (fun r => r.confidence == 0)).length = 2 ∧
      (processBatchLoop c9Oracle false c9Names).2 = 2) := by
  constructor
  · intro oracle incPop names
    rw [processBatchLoop_spec oracle incPop names.length names le_rfl]
    exact ⟨rfl, rfl⟩
  · rw [processBatchLoop_spec c9Oracle false c9Names.length c9Names le_rfl]
    refine ⟨?_, ?_, ?_⟩ <;> decide

end Shenasa
